import Mathlib

/-!
Shallow embedding of the remote slider-captcha control core
(`api_captcha_remote.py`): the WebSocket control loop, the
bounded double-confirm completion engine, the retry governor,
the screenshot throttling policy, and the HTTP mouse-event and
session-close endpoints.

The Automation Gateway (`captcha_controller`) is an external collaborator;
it is modelled as a deterministic oracle indexed by the number of calls
made so far to each of its capabilities, so that theorems can count and
constrain gateway calls.  Wall-clock timestamps are modelled in integral
milliseconds (the source uses seconds as floats; the throttling threshold
0.1 s becomes 100 ms).
-/

namespace CaptchaRemote

/-- Source constant `SLIDER_CONFIG["COMPLETION_CHECK_RETRY"] = 5`. -/
def COMPLETION_CHECK_RETRY : Nat := 5

/-- Source constant `SLIDER_CONFIG["MAX_SLIDE_RETRY"] = 2`. -/
def MAX_SLIDE_RETRY : Nat := 2

/-- Source constant `SLIDER_CONFIG["SCREENSHOT_QUALITY"] = 40`. -/
def SCREENSHOT_QUALITY : Nat := 40

/-- The move-throttling threshold `0.1` s, in milliseconds. -/
def THROTTLE_THRESHOLD_MS : Nat := 100

/-- The `viewport` attribute of a session: `{width, height}` bounds. -/
structure Viewport where
  width : Int
  height : Int
deriving Repr, DecidableEq

/-- One record of `captcha_controller.active_sessions[session_id]`.
The dictionary keys used by this file become fields; `last_move_time`
and `slide_retry_count` are read with default `0` in the source
(`.get(..., 0)` / `setdefault(..., 0)`), so a freshly created session is
modelled with those fields already `0`. -/
structure SessionData where
  screenshot : String
  captcha_info : String
  viewport : Option Viewport
  completed : Bool
  slide_retry_count : Nat
  last_move_time : Nat
  last_operate_time : Nat
deriving Repr, DecidableEq

/-- Oracle model of the Automation Gateway (`captcha_controller`).
Each capability is a pure function of the index of the call (how many
calls to that capability were made before) and the call's arguments,
standing for whatever the underlying browser session would answer. -/
structure Gateway where
  handle_mouse_event : Nat → String → Int → Int → Bool
  check_completion : Nat → Bool
  update_screenshot : Nat → Nat → Bool → Option String
deriving Inhabited

/-- Helper `get_session_slide_retry`: read `slide_retry_count` with default 0
from the session store entry (absent entry ⇒ 0). -/
def get_session_slide_retry (session : Option SessionData) : Nat :=
  match session with
  | some sd => sd.slide_retry_count
  | none => 0

/-- Helper `increment_session_slide_retry`: if the session exists, store
`get_session_slide_retry + 1`. -/
def increment_session_slide_retry (session : Option SessionData) :
    Option SessionData :=
  match session with
  | some sd =>
      some { sd with slide_retry_count := get_session_slide_retry (some sd) + 1 }
  | none => none

/-- Recursion core of `check_completion_with_retry`: `fuel` remaining
polling rounds, `idx` the index of the next `check_completion` call.
Each round queries the gateway once; on a positive answer it waits the
0.2 s settle interval and queries again, returning confirmed only when
both agree; otherwise it waits the 0.4 s poll interval and retries.
Returns the decision together with the index after the calls consumed. -/
def checkCompletionAux (oracle : Nat → Bool) : Nat → Nat → Bool × Nat
  | 0, idx => (false, idx)
  | fuel + 1, idx =>
    if oracle idx then
      if oracle (idx + 1) then (true, idx + 2)
      else checkCompletionAux oracle fuel (idx + 2)
    else checkCompletionAux oracle fuel (idx + 1)

/-- Function `check_completion_with_retry`: bounded double-confirm polling with
`COMPLETION_CHECK_RETRY = 5` rounds. -/
def check_completion_with_retry (oracle : Nat → Bool) (idx : Nat) : Bool × Nat :=
  checkCompletionAux oracle COMPLETION_CHECK_RETRY idx

/-- Index of the first gateway call of the next polling round, given the
index of the first call of the current round: a round consumes two calls
when its first check is positive, one otherwise. -/
def nextRound (oracle : Nat → Bool) (s : Nat) : Nat :=
  if oracle s then s + 2 else s + 1

/-- Index of the first gateway call of round `k` (0-based) of the polling
loop started at call index `idx`. -/
def roundStart (oracle : Nat → Bool) (idx : Nat) : Nat → Nat
  | 0 => idx
  | k + 1 => nextRound oracle (roundStart oracle idx k)

/-- Inbound control-channel messages, dispatched on the `type` field.
A `mouse_event` carries the wall-clock instant (ms) at which the loop
handles it, standing for the source's `time.time()` reads. `other`
stands for any message with an unrecognized `type`. -/
inductive InMsg where
  | mouse_event (event_type : String) (x y : Int) (now : Nat)
  | check_completion
  | ping
  | other
deriving Repr, DecidableEq

/-- Outbound messages pushed over the control channel, with the fields
this file actually sets. -/
inductive OutMsg where
  | session_info (screenshot captcha_info : String)
      (viewport : Option Viewport) (slide_retry_count : Nat)
  | error (code : String)
  | retry_exceed (code : String)
  | completed_msg (code : String)
  | screenshot_update (screenshot : String) (slide_retry_count : Option Nat)
  | completion_status (completed : Bool) (slide_retry_count : Nat)
  | pong (session_exists : Bool) (slide_retry_count : Nat)
deriving Repr, DecidableEq

/-- State threaded through the WebSocket message loop: the session-store
entry for this session id, plus the number of calls made so far to each
gateway capability (which is also the index of the next call). -/
structure LoopState where
  session : Option SessionData
  hmIdx : Nat
  ccIdx : Nat
  ssIdx : Nat
deriving Repr, DecidableEq

/-- What one handled message does to the loop: continue, or break out
(`slide_success` is the value the finalizer will record). -/
inductive StepResult where
  | cont
  | brk (slide_success : Bool)
deriving Repr, DecidableEq

/-- Read of `session_data.get('viewport')` (absent session ⇒ none). -/
def getViewport (session : Option SessionData) : Option Viewport :=
  match session with
  | some sd => sd.viewport
  | none => none

/-- Read of `session_data.get('last_move_time', 0)`. -/
def getLastMoveTime (session : Option SessionData) : Nat :=
  match session with
  | some sd => sd.last_move_time
  | none => 0

/-- Write of `session_data['last_move_time'] = now`. -/
def setLastMoveTime (session : Option SessionData) (now : Nat) :
    Option SessionData :=
  match session with
  | some sd => some { sd with last_move_time := now }
  | none => none

/-- The coordinate validation `0 <= x <= viewport.width and
0 <= y <= viewport.height`. -/
def coordInViewport (vp : Viewport) (x y : Int) : Bool :=
  decide (0 ≤ x) && decide (x ≤ vp.width) && decide (0 ≤ y) && decide (y ≤ vp.height)

/-- The `event_type == up` branch after a successful injection:
`random_human_delay` (timing only), then `check_completion_with_retry`;
if confirmed, one final `check_completion` after a 0.3 s pause decides
whether the terminal `completed`/`SUCCESS` push happens (a negative
final check does nothing and the loop continues); if not confirmed,
increment the retry counter, request a screenshot and, when one comes
back, push `screenshot_update` showing `current_retry + 1`. -/
def handleUpEvent (gw : Gateway) (st : LoopState) (current_retry : Nat) :
    LoopState × List OutMsg × StepResult :=
  let res := check_completion_with_retry gw.check_completion st.ccIdx
  if res.1 then
    if gw.check_completion res.2 then
      ({ st with ccIdx := res.2 + 1 },
       [OutMsg.completed_msg "SUCCESS"], StepResult.brk true)
    else
      ({ st with ccIdx := res.2 + 1 }, [], StepResult.cont)
  else
    let st2 := { st with ccIdx := res.2,
                         session := increment_session_slide_retry st.session }
    match gw.update_screenshot st2.ssIdx SCREENSHOT_QUALITY true with
    | some s =>
        ({ st2 with ssIdx := st2.ssIdx + 1 },
         [OutMsg.screenshot_update s (some (current_retry + 1))], StepResult.cont)
    | none => ({ st2 with ssIdx := st2.ssIdx + 1 }, [], StepResult.cont)

/-- The `down`/`move` branch after a successful injection: request a
screenshot only when more than 0.1 s elapsed since the recorded
`last_move_time`; afterwards the timestamp is set to now whether or not
an image came back; a throttled event does nothing. -/
def handleMoveEvent (gw : Gateway) (st : LoopState) (now : Nat) :
    LoopState × List OutMsg × StepResult :=
  if getLastMoveTime st.session + THROTTLE_THRESHOLD_MS < now then
    let st1 := { st with ssIdx := st.ssIdx + 1,
                         session := setLastMoveTime st.session now }
    match gw.update_screenshot st.ssIdx SCREENSHOT_QUALITY true with
    | some s => (st1, [OutMsg.screenshot_update s none], StepResult.cont)
    | none => (st1, [], StepResult.cont)
  else
    (st, [], StepResult.cont)

/-- Dispatch on `event_type` once `captcha_controller.handle_mouse_event`
returned true; an `event_type` that is neither `up` nor `down`/`move`
does nothing. -/
def handleInjectedEvent (gw : Gateway) (st : LoopState) (current_retry : Nat)
    (event_type : String) (now : Nat) : LoopState × List OutMsg × StepResult :=
  if event_type = "up" then
    handleUpEvent gw st current_retry
  else if event_type = "down" ∨ event_type = "move" then
    handleMoveEvent gw st now
  else
    (st, [], StepResult.cont)

/-- The `mouse_event` handler after coordinate validation: inject the
event through the gateway (always one call); a false return is a no-op. -/
def handleMouseEventMsg (gw : Gateway) (st : LoopState) (current_retry : Nat)
    (event_type : String) (x y : Int) (now : Nat) :
    LoopState × List OutMsg × StepResult :=
  let success := gw.handle_mouse_event st.hmIdx event_type x y
  let st1 := { st with hmIdx := st.hmIdx + 1 }
  if success then
    handleInjectedEvent gw st1 current_retry event_type now
  else
    (st1, [], StepResult.cont)

/-- One iteration of the WebSocket receive loop on one inbound message:
read `current_retry`; if it already reached `MAX_SLIDE_RETRY`, push
`retry_exceed` and break — this happens before the dispatch on the
message type, for every message; otherwise dispatch on `type`. -/
def stepMsg (gw : Gateway) (st : LoopState) (msg : InMsg) :
    LoopState × List OutMsg × StepResult :=
  let current_retry := get_session_slide_retry st.session
  if MAX_SLIDE_RETRY ≤ current_retry then
    (st, [OutMsg.retry_exceed "RETRY_EXCEED"], StepResult.brk false)
  else
    match msg with
    | InMsg.mouse_event event_type x y now =>
      match getViewport st.session with
      | some vp =>
          if coordInViewport vp x y then
            handleMouseEventMsg gw st current_retry event_type x y now
          else
            (st, [OutMsg.error "INVALID_COORDINATE"], StepResult.cont)
      | none => handleMouseEventMsg gw st current_retry event_type x y now
    | InMsg.check_completion =>
      let res := check_completion_with_retry gw.check_completion st.ccIdx
      ({ st with ccIdx := res.2 },
       [OutMsg.completion_status res.1 current_retry],
       if res.1 then StepResult.brk true else StepResult.cont)
    | InMsg.ping =>
      (st, [OutMsg.pong st.session.isSome current_retry], StepResult.cont)
    | InMsg.other => (st, [], StepResult.cont)

/-- The receive loop over the sequence of inbound messages: runs until a
break or until the message stream ends (the client disconnecting).
Returns the final state, every message pushed, and `slide_success`. -/
def runLoop (gw : Gateway) : LoopState → List InMsg → LoopState × List OutMsg × Bool
  | st, [] => (st, [], false)
  | st, msg :: rest =>
    match stepMsg gw st msg with
    | (st1, outs, StepResult.cont) =>
      let r := runLoop gw st1 rest
      (r.1, outs ++ r.2.1, r.2.2)
    | (st1, outs, StepResult.brk success) => (st1, outs, success)

/-- The `finally` block of `websocket_endpoint`: if the session still
exists, overwrite `completed` with the loop's `slide_success` and stamp
`last_operate_time`. -/
def finalizeSession (session : Option SessionData) (slide_success : Bool)
    (now : Nat) : Option SessionData :=
  match session with
  | some sd => some { sd with completed := slide_success, last_operate_time := now }
  | none => none

/-- Observable outcome of one full run of `websocket_endpoint`. -/
structure EndpointResult where
  outs : List OutMsg
  closeCode : Option Nat
  registeredAtCheck : Bool
  enteredLoop : Bool
  finalSession : Option SessionData
  finalRegistered : Bool
  slide_success : Bool
deriving Repr, DecidableEq

/-- Endpoint `websocket_endpoint`: accept, register the channel in
`websocket_connections` (unconditionally, before the session check — so
`registeredAtCheck` is `true` in both branches), reject unknown sessions
with `SESSION_NOT_FOUND` and close code 1008, otherwise push
`session_info` and run the receive loop; the `finally` block always
deregisters the channel (`finalRegistered = false`) and, when the
session exists, records `slide_success` into `completed` and stamps
`last_operate_time` with `nowEnd`. -/
def websocket_endpoint (gw : Gateway) (session0 : Option SessionData)
    (nowEnd : Nat) (msgs : List InMsg) : EndpointResult :=
  match session0 with
  | none =>
    { outs := [OutMsg.error "SESSION_NOT_FOUND"]
      closeCode := some 1008
      registeredAtCheck := true
      enteredLoop := false
      finalSession := none
      finalRegistered := false
      slide_success := false }
  | some sd =>
    let st0 : LoopState := { session := some sd, hmIdx := 0, ccIdx := 0, ssIdx := 0 }
    let r := runLoop gw st0 msgs
    { outs := OutMsg.session_info sd.screenshot sd.captcha_info sd.viewport
        (get_session_slide_retry (some sd)) :: r.2.1
      closeCode := none
      registeredAtCheck := true
      enteredLoop := true
      finalSession := finalizeSession r.1.session r.2.2 nowEnd
      finalRegistered := false
      slide_success := r.2.2 }

/-- The error outcomes (HTTPException) of `POST /mouse_event`. -/
inductive HttpError where
  | session_not_found
  | retry_exceeded
  | handle_failed
deriving Repr, DecidableEq

/-- The JSON body returned by `POST /mouse_event` on success. -/
structure MouseEventResponse where
  success : Bool
  completed : Bool
  slide_retry_count : Nat
deriving Repr, DecidableEq

/-- Route `handle_mouse_event` (the `POST /mouse_event` route): 404 for an
unknown session, 400 once `MAX_SLIDE_RETRY` is reached, 400 when the
gateway rejects the injection; on an `up` event, wait the human delay and
run `check_completion_with_retry`; if it confirms, increment the stored
retry counter; the response reports
`current_retry + (0 if completed else 1)`.  Returns the response together
with the session-store entry afterwards. -/
def handle_mouse_event (gw : Gateway) (session0 : Option SessionData)
    (event_type : String) (x y : Int) :
    Except HttpError (MouseEventResponse × Option SessionData) :=
  match session0 with
  | none => Except.error HttpError.session_not_found
  | some sd =>
    let current_retry := get_session_slide_retry (some sd)
    if MAX_SLIDE_RETRY ≤ current_retry then
      Except.error HttpError.retry_exceeded
    else if gw.handle_mouse_event 0 event_type x y then
      if event_type = "up" then
        let completed := (check_completion_with_retry gw.check_completion 0).1
        let session1 :=
          if completed then increment_session_slide_retry (some sd) else some sd
        Except.ok
          ({ success := true, completed := completed,
             slide_retry_count := current_retry + (if completed then 0 else 1) },
           session1)
      else
        Except.ok
          ({ success := true, completed := false,
             slide_retry_count := current_retry + 1 }, some sd)
    else
      Except.error HttpError.handle_failed

/-- Process-level state visible to the `DELETE /session/{id}` route, for
one fixed session id: the session-store entry, whether a control channel
is registered for the id in `websocket_connections`, and whether the
gateway's underlying automation resources for the id were released. -/
structure SystemState where
  session : Option SessionData
  registered : Bool
  gatewayReleased : Bool
deriving Repr, DecidableEq

/-- Modelled from the spec: the Automation Gateway capability
`close_session(session_id) -> void`, which per the external-interface
contract "releases underlying automation resources"; its implementation
(`utils/captcha_remote_control.py`) is not among the sources here, so it
is modelled as doing exactly what that contract states and nothing
else — in particular it does not touch the connection registry. -/
def captcha_controller_close_session (s : SystemState) : SystemState :=
  { s with gatewayReleased := true }

/-- Route `close_session` (the `DELETE /session/{session_id}` route): call the
gateway's `close_session`, then delete the session-store entry if
present, and return `success = true`. -/
def close_session (s : SystemState) : SystemState × Bool :=
  let s1 := captcha_controller_close_session s
  let s2 :=
    match s1.session with
    | some _ => { s1 with session := none }
    | none => s1
  (s2, true)

/-! ## Concrete exemplar inputs used by counterexamples and witnesses -/

/-- A gateway whose completion oracle always answers positively and whose
injections always succeed. -/
def exGatewayTT : Gateway :=
  { handle_mouse_event := fun _ _ _ _ => true
    check_completion := fun _ => true
    update_screenshot := fun _ _ _ => some "img" }

/-- A gateway whose completion oracle answers positively on exactly the
first two calls and negatively thereafter. -/
def exGatewayTTF : Gateway :=
  { exGatewayTT with check_completion := fun i => decide (i < 2) }

/-- A fresh session with the spec's exemplar 300×150 viewport. -/
def exSession : SessionData :=
  { screenshot := "s0", captcha_info := "ci",
    viewport := some { width := 300, height := 150 }, completed := false,
    slide_retry_count := 0, last_move_time := 0, last_operate_time := 0 }

/-- Loop state at the start of a control loop over `exSession`. -/
def exState : LoopState :=
  { session := some exSession, hmIdx := 0, ccIdx := 0, ssIdx := 0 }

/-- Loop state for a session whose retry counter has reached the ceiling. -/
def exStateCeiling : LoopState :=
  { session := some { exSession with slide_retry_count := 2 },
    hmIdx := 0, ccIdx := 0, ssIdx := 0 }

/-! ## Helper lemmas -/

theorem roundStart_succ_shift (oracle : Nat → Bool) (idx k : Nat) :
    roundStart oracle idx (k + 1) = roundStart oracle (nextRound oracle idx) k := by
  induction k with
  | zero => rfl
  | succ k ih =>
    show nextRound oracle (roundStart oracle idx (k + 1)) =
      nextRound oracle (roundStart oracle (nextRound oracle idx) k)
    rw [ih]

theorem checkCompletionAux_true_iff (oracle : Nat → Bool) (fuel : Nat) :
    ∀ idx, (checkCompletionAux oracle fuel idx).1 = true ↔
      ∃ k, k < fuel ∧ oracle (roundStart oracle idx k) = true ∧
        oracle (roundStart oracle idx k + 1) = true := by
  induction fuel with
  | zero => intro idx; simp [checkCompletionAux]
  | succ fuel ih =>
    intro idx
    cases h0 : oracle idx with
    | true =>
      cases h1 : oracle (idx + 1) with
      | true =>
        have he : checkCompletionAux oracle (fuel + 1) idx = (true, idx + 2) := by
          simp [checkCompletionAux, h0, h1]
        rw [he]
        constructor
        · intro _
          exact ⟨0, Nat.succ_pos _, by simpa [roundStart] using And.intro h0 h1⟩
        · intro _; rfl
      | false =>
        have hnext : nextRound oracle idx = idx + 2 := by simp [nextRound, h0]
        have he : checkCompletionAux oracle (fuel + 1) idx =
            checkCompletionAux oracle fuel (idx + 2) := by
          simp [checkCompletionAux, h0, h1]
        rw [he, ih (idx + 2)]
        constructor
        · rintro ⟨k, hk, ha, hb⟩
          refine ⟨k + 1, by omega, ?_, ?_⟩
          · rw [roundStart_succ_shift, hnext]; exact ha
          · rw [roundStart_succ_shift, hnext]; exact hb
        · rintro ⟨k, hk, ha, hb⟩
          cases k with
          | zero =>
            exfalso
            simp only [roundStart] at hb
            rw [h1] at hb
            exact Bool.false_ne_true hb
          | succ k =>
            rw [roundStart_succ_shift, hnext] at ha hb
            exact ⟨k, by omega, ha, hb⟩
    | false =>
      have hnext : nextRound oracle idx = idx + 1 := by simp [nextRound, h0]
      have he : checkCompletionAux oracle (fuel + 1) idx =
          checkCompletionAux oracle fuel (idx + 1) := by
        simp [checkCompletionAux, h0]
      rw [he, ih (idx + 1)]
      constructor
      · rintro ⟨k, hk, ha, hb⟩
        refine ⟨k + 1, by omega, ?_, ?_⟩
        · rw [roundStart_succ_shift, hnext]; exact ha
        · rw [roundStart_succ_shift, hnext]; exact hb
      · rintro ⟨k, hk, ha, hb⟩
        cases k with
        | zero =>
          exfalso
          simp only [roundStart] at ha
          rw [h0] at ha
          exact Bool.false_ne_true ha
        | succ k =>
          rw [roundStart_succ_shift, hnext] at ha hb
          exact ⟨k, by omega, ha, hb⟩

/-! ## Claim theorems -/

/-- C2: `check_completion_with_retry` returns confirmed iff, within at
most `COMPLETION_CHECK_RETRY = 5` polling rounds, some round observes two
consecutive positive gateway completion checks (the settle-interval
re-check); it short-circuits on success (a constantly-positive oracle is
decided after the first round's two calls); and a single positive check
surrounded by negatives yields not-confirmed after consuming all five
rounds. -/
theorem C2_confirmed_iff_two_consecutive_positive :
    (∀ oracle idx, (check_completion_with_retry oracle idx).1 = true ↔
      ∃ k, k < COMPLETION_CHECK_RETRY ∧
        oracle (roundStart oracle idx k) = true ∧
        oracle (roundStart oracle idx k + 1) = true) ∧
    check_completion_with_retry (fun _ => true) 0 = (true, 2) ∧
    check_completion_with_retry (fun i => decide (i = 1)) 0 = (false, 6) :=
  ⟨fun oracle idx => checkCompletionAux_true_iff oracle COMPLETION_CHECK_RETRY idx,
   rfl, rfl⟩

/-- C1 counterexample: with a gateway whose completion oracle answers
true on exactly the first two polls (and whose injection succeeds), the
post-release confirmation sequence returns confirmed, yet the loop pushes
no `completed` message and does not end: the handler makes one further
final completion check after the confirmation sequence, and its negative
answer silently drops the success path. -/
theorem C1_counterexample :
    (check_completion_with_retry exGatewayTTF.check_completion 0).1 = true ∧
    exGatewayTTF.handle_mouse_event 0 "up" 150 75 = true ∧
    (stepMsg exGatewayTTF exState (InMsg.mouse_event "up" 150 75 1000)).2 =
      ([], StepResult.cont) :=
  ⟨rfl, rfl, rfl⟩

/-- C1 (amended): for an `up` mouse event whose injection succeeds, if
the post-release confirmation sequence returns confirmed AND the single
final completion re-check (made after a further 0.3 s pause) is also
positive, the loop pushes the terminal `completed`/`SUCCESS` message and
breaks with success, leaving the session record — in particular its
`slide_retry_count` — unchanged; a completion oracle answering true on
the first three polls suffices. -/
theorem C1_amended_up_confirmed (gw : Gateway) (st : LoopState)
    (sd : SessionData) (vp : Viewport) (x y : Int) (now : Nat) (n : Nat)
    (hs : st.session = some sd)
    (hr : sd.slide_retry_count < MAX_SLIDE_RETRY)
    (hv : sd.viewport = some vp)
    (hxy : coordInViewport vp x y = true)
    (hm : gw.handle_mouse_event st.hmIdx "up" x y = true)
    (hc : check_completion_with_retry gw.check_completion st.ccIdx = (true, n))
    (hf : gw.check_completion n = true) :
    stepMsg gw st (InMsg.mouse_event "up" x y now) =
      ({ st with hmIdx := st.hmIdx + 1, ccIdx := n + 1 },
       [OutMsg.completed_msg "SUCCESS"], StepResult.brk true) := by
  have hcr : get_session_slide_retry st.session = sd.slide_retry_count := by
    rw [hs]; rfl
  have hvp : getViewport st.session = some vp := by
    rw [hs]; simpa [getViewport] using hv
  have hnle : ¬ MAX_SLIDE_RETRY ≤ get_session_slide_retry st.session := by
    rw [hcr]; exact Nat.not_le.mpr hr
  unfold stepMsg
  rw [if_neg hnle]
  simp only [hvp, hxy, if_true]
  unfold handleMouseEventMsg
  simp only [hm, if_true]
  unfold handleInjectedEvent
  rw [if_pos rfl]
  unfold handleUpEvent
  simp only [hc, hf, if_true]

/-- C1 witness: with the constantly-positive oracle, the up event on the
fresh exemplar session produces the `completed`/`SUCCESS` break. -/
theorem C1_amended_up_confirmed_witness :
    stepMsg exGatewayTT exState (InMsg.mouse_event "up" 150 75 1000) =
      ({ exState with hmIdx := 1, ccIdx := 3 },
       [OutMsg.completed_msg "SUCCESS"], StepResult.brk true) :=
  C1_amended_up_confirmed exGatewayTT exState exSession
    { width := 300, height := 150 } 150 75 1000 2
    rfl (by decide) rfl (by decide) rfl rfl rfl

/-- C3: once `slide_retry_count` has reached `MAX_SLIDE_RETRY = 2`, the
loop answers any further inbound `mouse_event` with a single
`retry_exceed`/`RETRY_EXCEED` push and terminates unsuccessfully with the
loop state unchanged — so no gateway capability (`handle_mouse_event`,
`check_completion`, `update_screenshot`) is called again for this
session's loop, whatever messages were still queued. -/
theorem C3_retry_exceeded_terminates (gw : Gateway) (st : LoopState)
    (event_type : String) (x y : Int) (now : Nat) (rest : List InMsg)
    (hr : MAX_SLIDE_RETRY ≤ get_session_slide_retry st.session) :
    runLoop gw st (InMsg.mouse_event event_type x y now :: rest) =
      (st, [OutMsg.retry_exceed "RETRY_EXCEED"], false) := by
  unfold runLoop stepMsg
  rw [if_pos hr]

/-- C3 witness at the ceiling state. -/
theorem C3_retry_exceeded_terminates_witness :
    runLoop exGatewayTT exStateCeiling [InMsg.mouse_event "down" 1 1 0] =
      (exStateCeiling, [OutMsg.retry_exceed "RETRY_EXCEED"], false) :=
  C3_retry_exceeded_terminates exGatewayTT exStateCeiling "down" 1 1 0 []
    (by decide)

/-- C5: a `mouse_event` handled below the retry ceiling whose coordinates
fall outside the session's viewport is answered with an
`INVALID_COORDINATE` error; the loop continues and the state — including
the gateway call counters, so in particular `handle_mouse_event` — is
untouched. -/
theorem C5_invalid_coordinate_rejected (gw : Gateway) (st : LoopState)
    (sd : SessionData) (vp : Viewport) (event_type : String) (x y : Int)
    (now : Nat)
    (hs : st.session = some sd)
    (hr : sd.slide_retry_count < MAX_SLIDE_RETRY)
    (hv : sd.viewport = some vp)
    (hxy : coordInViewport vp x y = false) :
    stepMsg gw st (InMsg.mouse_event event_type x y now) =
      (st, [OutMsg.error "INVALID_COORDINATE"], StepResult.cont) := by
  have hvp : getViewport st.session = some vp := by
    rw [hs]; simpa [getViewport] using hv
  have hnle : ¬ MAX_SLIDE_RETRY ≤ get_session_slide_retry st.session := by
    rw [hs]
    exact Nat.not_le.mpr hr
  unfold stepMsg
  rw [if_neg hnle]
  simp only [hvp, hxy, Bool.false_eq_true, if_false]

/-- C5 witness: `x = 400` against the 300×150 viewport. -/
theorem C5_invalid_coordinate_rejected_witness :
    stepMsg exGatewayTT exState (InMsg.mouse_event "up" 400 75 0) =
      (exState, [OutMsg.error "INVALID_COORDINATE"], StepResult.cont) :=
  C5_invalid_coordinate_rejected exGatewayTT exState exSession
    { width := 300, height := 150 } "up" 400 75 0 rfl (by decide) rfl (by decide)

/-- C8 counterexample: at the retry ceiling, an inbound `ping` does not
get a `pong` — the ceiling check runs before the dispatch on the message
type, so the ping triggers `retry_exceed` and terminates the loop. -/
theorem C8_counterexample :
    stepMsg exGatewayTT exStateCeiling InMsg.ping =
      (exStateCeiling, [OutMsg.retry_exceed "RETRY_EXCEED"],
       StepResult.brk false) :=
  rfl

/-- C8 (amended): while the retry counter is below the ceiling, an
inbound `ping` is answered with a `pong` carrying the session-existence
flag and the retry-count snapshot, the loop continues and the state is
unchanged; at or above the ceiling the ping, like any message, triggers
`retry_exceed` termination instead. -/
theorem C8_amended_ping_pong (gw : Gateway) (st : LoopState)
    (hr : get_session_slide_retry st.session < MAX_SLIDE_RETRY) :
    stepMsg gw st InMsg.ping =
      (st, [OutMsg.pong st.session.isSome (get_session_slide_retry st.session)],
       StepResult.cont) := by
  unfold stepMsg
  rw [if_neg (Nat.not_le.mpr hr)]

/-- C8 witness on the fresh exemplar session. -/
theorem C8_amended_ping_pong_witness :
    stepMsg exGatewayTT exState InMsg.ping =
      (exState, [OutMsg.pong true 0], StepResult.cont) :=
  C8_amended_ping_pong exGatewayTT exState (by decide)

theorem increment_session_isSome (s : Option SessionData) :
    (increment_session_slide_retry s).isSome = s.isSome := by
  cases s <;> rfl

theorem setLastMoveTime_isSome (s : Option SessionData) (now : Nat) :
    (setLastMoveTime s now).isSome = s.isSome := by
  cases s <;> rfl

theorem handleUpEvent_session_isSome (gw : Gateway) (st : LoopState)
    (cr : Nat) :
    ((handleUpEvent gw st cr).1).session.isSome = st.session.isSome := by
  unfold handleUpEvent
  dsimp only
  repeat' split
  all_goals simp [increment_session_isSome]

theorem handleMoveEvent_session_isSome (gw : Gateway) (st : LoopState)
    (now : Nat) :
    ((handleMoveEvent gw st now).1).session.isSome = st.session.isSome := by
  unfold handleMoveEvent
  repeat' split
  all_goals simp [setLastMoveTime_isSome]

theorem handleInjectedEvent_session_isSome (gw : Gateway) (st : LoopState)
    (cr : Nat) (event_type : String) (now : Nat) :
    ((handleInjectedEvent gw st cr event_type now).1).session.isSome =
      st.session.isSome := by
  unfold handleInjectedEvent
  repeat' split
  · exact handleUpEvent_session_isSome gw st cr
  · exact handleMoveEvent_session_isSome gw st now
  · rfl

theorem handleMouseEventMsg_session_isSome (gw : Gateway) (st : LoopState)
    (cr : Nat) (event_type : String) (x y : Int) (now : Nat) :
    ((handleMouseEventMsg gw st cr event_type x y now).1).session.isSome =
      st.session.isSome := by
  unfold handleMouseEventMsg
  dsimp only
  split
  · exact handleInjectedEvent_session_isSome gw _ cr event_type now
  · rfl

theorem stepMsg_session_isSome (gw : Gateway) (st : LoopState) (msg : InMsg) :
    ((stepMsg gw st msg).1).session.isSome = st.session.isSome := by
  cases msg with
  | mouse_event event_type x y now =>
    unfold stepMsg
    dsimp only
    split
    · rfl
    · split
      · split
        · exact handleMouseEventMsg_session_isSome gw st _ event_type x y now
        · rfl
      · exact handleMouseEventMsg_session_isSome gw st _ event_type x y now
  | check_completion =>
    unfold stepMsg
    dsimp only
    split <;> rfl
  | ping =>
    unfold stepMsg
    dsimp only
    split <;> rfl
  | other =>
    unfold stepMsg
    dsimp only
    split <;> rfl

theorem runLoop_session_isSome (gw : Gateway) (msgs : List InMsg) :
    ∀ st : LoopState, ((runLoop gw st msgs).1).session.isSome = st.session.isSome := by
  induction msgs with
  | nil => intro st; rfl
  | cons m rest ih =>
    intro st
    have h := stepMsg_session_isSome gw st m
    unfold runLoop
    rcases he : stepMsg gw st m with ⟨st1, outs, r⟩
    rw [he] at h
    cases r with
    | cont => simpa [ih st1] using h
    | brk success => simpa using h

/-- C4 counterexample: a session whose `completed` flag is already true
loses it when a control loop attaches and ends without success — the
endpoint's finalizer overwrites `completed` with the loop's
`slide_success` flag, here false (empty message stream: the client
disconnected at once). -/
theorem C4_counterexample :
    (some { exSession with completed := true }).map SessionData.completed =
        some true ∧
    (websocket_endpoint exGatewayTT (some { exSession with completed := true })
        5 []).finalSession =
      some { exSession with completed := false, last_operate_time := 5 } :=
  ⟨rfl, rfl⟩

/-- C4 (amended): the `completed` flag of the session record is written
only by the control-loop finalizer, which sets it to whatever
`slide_success` the loop achieved — so it does NOT only transition
false→true: a later loop run on the same session that ends without
success resets a true `completed` back to false. This theorem states the
finalizer contract: after any endpoint run on an existing session, the
stored `completed` equals the run's `slide_success`. -/
theorem C4_amended_completed_follows_success (gw : Gateway)
    (sd : SessionData) (t : Nat) (msgs : List InMsg) :
    ∃ sd', (websocket_endpoint gw (some sd) t msgs).finalSession = some sd' ∧
      sd'.completed = (websocket_endpoint gw (some sd) t msgs).slide_success := by
  have h := runLoop_session_isSome gw msgs
    { session := some sd, hmIdx := 0, ccIdx := 0, ssIdx := 0 }
  simp only [websocket_endpoint]
  rcases ho : (runLoop gw { session := some sd, hmIdx := 0, ccIdx := 0, ssIdx := 0 }
      msgs).1.session with _ | sd1
  · rw [ho] at h
    simp at h
  · exact ⟨_, rfl, rfl⟩

/-- C6 counterexample: the channel is registered in the connection
registry before the session-existence check — so at the moment the
unknown-session check runs, the channel IS registered even though the
identifier is unknown (the registration is removed again by the
finalizer before the endpoint returns). -/
theorem C6_counterexample :
    (websocket_endpoint exGatewayTT none 0 []).outs =
        [OutMsg.error "SESSION_NOT_FOUND"] ∧
    (websocket_endpoint exGatewayTT none 0 []).registeredAtCheck = true ∧
    (websocket_endpoint exGatewayTT none 0 []).finalRegistered = false :=
  ⟨rfl, rfl, rfl⟩

/-- C6 (amended): attaching with an unknown session identifier
immediately sends `error`/`SESSION_NOT_FOUND`, closes the channel with
the policy-violation status 1008, never enters the message loop, and —
although the channel is registered unconditionally on accept, before the
check — the finalizer deregisters it, so a failed attach leaves no
registration; on a known session the loop is entered and the first push
is `session_info` carrying screenshot, captcha_info, viewport and the
current retry count. -/
theorem C6_amended_attach (gw : Gateway) (t : Nat) (msgs : List InMsg) :
    (websocket_endpoint gw none t msgs).outs =
        [OutMsg.error "SESSION_NOT_FOUND"] ∧
    (websocket_endpoint gw none t msgs).closeCode = some 1008 ∧
    (websocket_endpoint gw none t msgs).enteredLoop = false ∧
    (websocket_endpoint gw none t msgs).registeredAtCheck = true ∧
    (websocket_endpoint gw none t msgs).finalRegistered = false ∧
    ∀ sd : SessionData,
      (websocket_endpoint gw (some sd) t msgs).closeCode = none ∧
      (websocket_endpoint gw (some sd) t msgs).enteredLoop = true ∧
      (websocket_endpoint gw (some sd) t msgs).outs.head? =
        some (OutMsg.session_info sd.screenshot sd.captcha_info sd.viewport
          sd.slide_retry_count) :=
  ⟨rfl, rfl, rfl, rfl, rfl, fun _ => ⟨rfl, rfl, rfl⟩⟩

/-- The process state seen by the close route in the counterexample: the
exemplar session exists, its control channel is registered, and the
gateway resources are still held. -/
def exSystemState : SystemState :=
  { session := some exSession, registered := true, gatewayReleased := false }

/-- C9 counterexample: with a control channel registered for the session,
the `DELETE /session/{id}` route leaves the registration in place — the
route calls the gateway's `close_session` and deletes the store entry but
never touches the connection registry. -/
theorem C9_counterexample :
    exSystemState.registered = true ∧
    (close_session exSystemState).1.registered = true :=
  ⟨rfl, rfl⟩

/-- C9 (amended): the explicit close operation releases the gateway's
underlying automation resources via `close_session` and removes the
session record from the store, but does NOT deregister a control channel
registered for the identifier — the registry entry only disappears when
the channel's own loop finalizer runs. -/
theorem C9_amended_close_session (s : SystemState) :
    (close_session s).1.gatewayReleased = true ∧
    (close_session s).1.session = none ∧
    (close_session s).1.registered = s.registered ∧
    (close_session s).2 = true := by
  rcases s with ⟨sess, reg, rel⟩
  cases sess <;> simp [close_session, captcha_controller_close_session]

theorem handleMoveEvent_eq (gw : Gateway) (st : LoopState) (sd : SessionData)
    (now : Nat) (hs : st.session = some sd) :
    handleMoveEvent gw st now =
      if sd.last_move_time + THROTTLE_THRESHOLD_MS < now then
        ({ st with ssIdx := st.ssIdx + 1,
                   session := some { sd with last_move_time := now } },
         (match gw.update_screenshot st.ssIdx SCREENSHOT_QUALITY true with
          | some s => [OutMsg.screenshot_update s none]
          | none => ([] : List OutMsg)),
         StepResult.cont)
      else
        (st, [], StepResult.cont) := by
  unfold handleMoveEvent
  rw [hs]
  dsimp only [getLastMoveTime, setLastMoveTime]
  by_cases hc : sd.last_move_time + THROTTLE_THRESHOLD_MS < now
  · rw [if_pos hc, if_pos hc]
    rcases gw.update_screenshot st.ssIdx SCREENSHOT_QUALITY true with _ | s <;> rfl
  · rw [if_neg hc, if_neg hc]

theorem stepMsg_move_reduces (gw : Gateway) (st : LoopState) (sd : SessionData)
    (vp : Viewport) (event_type : String) (x y : Int) (now : Nat)
    (het : event_type = "down" ∨ event_type = "move")
    (hs : st.session = some sd)
    (hr : sd.slide_retry_count < MAX_SLIDE_RETRY)
    (hv : sd.viewport = some vp)
    (hxy : coordInViewport vp x y = true)
    (hm : gw.handle_mouse_event st.hmIdx event_type x y = true) :
    stepMsg gw st (InMsg.mouse_event event_type x y now) =
      handleMoveEvent gw { st with hmIdx := st.hmIdx + 1 } now := by
  have hvp : getViewport st.session = some vp := by
    rw [hs]; simpa [getViewport] using hv
  have hnle : ¬ MAX_SLIDE_RETRY ≤ get_session_slide_retry st.session := by
    rw [hs]; exact Nat.not_le.mpr hr
  have hne : ¬ event_type = "up" := by
    rcases het with h | h <;> subst h <;> decide
  unfold stepMsg
  rw [if_neg hnle]
  simp only [hvp, hxy, if_true]
  unfold handleMouseEventMsg
  dsimp only
  simp only [hm, if_true]
  unfold handleInjectedEvent
  rw [if_neg hne, if_pos het]

/-- C7: for every pair of `down`/`move` events (any combination of the
two event types) on one session handled less than 0.1 s apart, at most
one screenshot refresh request goes to the gateway, and no retry-count
change happens; moreover if the first event's refresh was permitted
(more than 0.1 s after the recorded `last_move_time`), the second event
is throttled: it is skipped silently, pushing nothing, making no
`update_screenshot` call and leaving the session record as the first
event left it. -/
theorem C7_move_throttled (gw : Gateway) (st : LoopState) (sd : SessionData)
    (vp : Viewport) (et1 et2 : String) (x1 y1 x2 y2 : Int) (t1 t2 : Nat)
    (r1 r2 : LoopState × List OutMsg × StepResult)
    (het1 : et1 = "down" ∨ et1 = "move")
    (het2 : et2 = "down" ∨ et2 = "move")
    (hs : st.session = some sd)
    (hr : sd.slide_retry_count < MAX_SLIDE_RETRY)
    (hv : sd.viewport = some vp)
    (hxy1 : coordInViewport vp x1 y1 = true)
    (hxy2 : coordInViewport vp x2 y2 = true)
    (hm1 : gw.handle_mouse_event st.hmIdx et1 x1 y1 = true)
    (hm2 : gw.handle_mouse_event (st.hmIdx + 1) et2 x2 y2 = true)
    (hlt : t2 < t1 + THROTTLE_THRESHOLD_MS)
    (e1 : stepMsg gw st (InMsg.mouse_event et1 x1 y1 t1) = r1)
    (e2 : stepMsg gw r1.1 (InMsg.mouse_event et2 x2 y2 t2) = r2) :
    r2.1.ssIdx ≤ st.ssIdx + 1 ∧
    get_session_slide_retry r2.1.session = get_session_slide_retry st.session ∧
    (sd.last_move_time + THROTTLE_THRESHOLD_MS < t1 →
      r2.2.1 = [] ∧ r2.1.ssIdx = st.ssIdx + 1 ∧ r2.1.session = r1.1.session) := by
  by_cases hc1 : sd.last_move_time + THROTTLE_THRESHOLD_MS < t1
  · have R1 : stepMsg gw st (InMsg.mouse_event et1 x1 y1 t1) =
        ({ session := some { sd with last_move_time := t1 }, hmIdx := st.hmIdx + 1,
           ccIdx := st.ccIdx, ssIdx := st.ssIdx + 1 },
         (match gw.update_screenshot st.ssIdx SCREENSHOT_QUALITY true with
          | some s => [OutMsg.screenshot_update s none]
          | none => ([] : List OutMsg)),
         StepResult.cont) := by
      rw [stepMsg_move_reduces gw st sd vp et1 x1 y1 t1 het1 hs hr hv hxy1 hm1,
          handleMoveEvent_eq gw { st with hmIdx := st.hmIdx + 1 } sd t1 hs,
          if_pos hc1]
    rw [R1] at e1
    subst e1
    dsimp only at e2
    have R2 : stepMsg gw
        { session := some { sd with last_move_time := t1 }, hmIdx := st.hmIdx + 1,
          ccIdx := st.ccIdx, ssIdx := st.ssIdx + 1 }
        (InMsg.mouse_event et2 x2 y2 t2) =
        ({ session := some { sd with last_move_time := t1 }, hmIdx := st.hmIdx + 1 + 1,
           ccIdx := st.ccIdx, ssIdx := st.ssIdx + 1 }, [], StepResult.cont) := by
      rw [stepMsg_move_reduces gw _ { sd with last_move_time := t1 } vp et2 x2 y2 t2
            het2 rfl hr hv hxy2 hm2,
          handleMoveEvent_eq gw _ { sd with last_move_time := t1 } t2 rfl,
          if_neg (Nat.not_lt.mpr (Nat.le_of_lt hlt))]
    rw [R2] at e2
    subst e2
    refine ⟨Nat.le_refl _, ?_, fun _ => ⟨rfl, rfl, rfl⟩⟩
    rw [hs]
    rfl
  · have R1 : stepMsg gw st (InMsg.mouse_event et1 x1 y1 t1) =
        ({ session := st.session, hmIdx := st.hmIdx + 1,
           ccIdx := st.ccIdx, ssIdx := st.ssIdx }, [], StepResult.cont) := by
      rw [stepMsg_move_reduces gw st sd vp et1 x1 y1 t1 het1 hs hr hv hxy1 hm1,
          handleMoveEvent_eq gw { st with hmIdx := st.hmIdx + 1 } sd t1 hs,
          if_neg hc1]
    rw [R1] at e1
    subst e1
    dsimp only at e2
    by_cases hc2 : sd.last_move_time + THROTTLE_THRESHOLD_MS < t2
    · have R2 : stepMsg gw
          { session := st.session, hmIdx := st.hmIdx + 1,
            ccIdx := st.ccIdx, ssIdx := st.ssIdx }
          (InMsg.mouse_event et2 x2 y2 t2) =
          ({ session := some { sd with last_move_time := t2 }, hmIdx := st.hmIdx + 1 + 1,
             ccIdx := st.ccIdx, ssIdx := st.ssIdx + 1 },
           (match gw.update_screenshot st.ssIdx SCREENSHOT_QUALITY true with
            | some s => [OutMsg.screenshot_update s none]
            | none => ([] : List OutMsg)),
           StepResult.cont) := by
        rw [stepMsg_move_reduces gw
              { session := st.session, hmIdx := st.hmIdx + 1,
                ccIdx := st.ccIdx, ssIdx := st.ssIdx }
              sd vp et2 x2 y2 t2 het2 hs hr hv hxy2 hm2]
        dsimp only
        rw [handleMoveEvent_eq gw
              { session := st.session, hmIdx := st.hmIdx + 1 + 1,
                ccIdx := st.ccIdx, ssIdx := st.ssIdx }
              sd t2 hs,
            if_pos hc2]
      rw [R2] at e2
      subst e2
      refine ⟨Nat.le_refl _, ?_, fun h => absurd h hc1⟩
      rw [hs]
      rfl
    · have R2 : stepMsg gw
          { session := st.session, hmIdx := st.hmIdx + 1,
            ccIdx := st.ccIdx, ssIdx := st.ssIdx }
          (InMsg.mouse_event et2 x2 y2 t2) =
          ({ session := st.session, hmIdx := st.hmIdx + 1 + 1,
             ccIdx := st.ccIdx, ssIdx := st.ssIdx }, [], StepResult.cont) := by
        rw [stepMsg_move_reduces gw
              { session := st.session, hmIdx := st.hmIdx + 1,
                ccIdx := st.ccIdx, ssIdx := st.ssIdx }
              sd vp et2 x2 y2 t2 het2 hs hr hv hxy2 hm2]
        dsimp only
        rw [handleMoveEvent_eq gw
              { session := st.session, hmIdx := st.hmIdx + 1 + 1,
                ccIdx := st.ccIdx, ssIdx := st.ssIdx }
              sd t2 hs,
            if_neg hc2]
      rw [R2] at e2
      subst e2
      exact ⟨Nat.le_succ _, rfl, fun h => absurd h hc1⟩

/-- The loop state after the first exemplar event, a `down` at
t = 200 ms (refresh granted). -/
def exMoveR1 : LoopState × List OutMsg × StepResult :=
  ({ session := some { exSession with last_move_time := 200 },
     hmIdx := 1, ccIdx := 0, ssIdx := 1 },
   [OutMsg.screenshot_update "img" none], StepResult.cont)

/-- The loop state after the second exemplar event, a `move` at
t = 250 ms (throttled): nothing pushed, no further screenshot call. -/
def exMoveR2 : LoopState × List OutMsg × StepResult :=
  ({ session := some { exSession with last_move_time := 200 },
     hmIdx := 2, ccIdx := 0, ssIdx := 1 },
   [], StepResult.cont)

/-- C7 witness: a `down` at 200 ms followed by a `move` at 250 ms. -/
theorem C7_move_throttled_witness :
    exMoveR2.1.ssIdx ≤ exState.ssIdx + 1 ∧
    get_session_slide_retry exMoveR2.1.session =
      get_session_slide_retry exState.session ∧
    (exSession.last_move_time + THROTTLE_THRESHOLD_MS < 200 →
      exMoveR2.2.1 = [] ∧ exMoveR2.1.ssIdx = exState.ssIdx + 1 ∧
      exMoveR2.1.session = exMoveR1.1.session) :=
  C7_move_throttled exGatewayTT exState exSession { width := 300, height := 150 }
    "down" "move" 10 10 11 11 200 250 exMoveR1 exMoveR2
    (Or.inl rfl) (Or.inr rfl) rfl (by decide) rfl (by decide)
    (by decide) rfl rfl (by decide) rfl rfl

theorem handle_mouse_event_up_eq (gw : Gateway) (sd : SessionData) (x y : Int)
    (hr : sd.slide_retry_count < MAX_SLIDE_RETRY)
    (hm : gw.handle_mouse_event 0 "up" x y = true) :
    handle_mouse_event gw (some sd) "up" x y =
      if (check_completion_with_retry gw.check_completion 0).1 then
        Except.ok ({ success := true, completed := true,
                     slide_retry_count := sd.slide_retry_count },
                   some { sd with slide_retry_count := sd.slide_retry_count + 1 })
      else
        Except.ok ({ success := true, completed := false,
                     slide_retry_count := sd.slide_retry_count + 1 }, some sd) := by
  have hnle : ¬ MAX_SLIDE_RETRY ≤ get_session_slide_retry (some sd) :=
    Nat.not_le.mpr hr
  unfold handle_mouse_event
  dsimp only
  rw [if_neg hnle]
  simp only [hm, if_true]
  cases hcc : (check_completion_with_retry gw.check_completion 0).1 with
  | true =>
    simp [hcc, increment_session_slide_retry, get_session_slide_retry]
  | false =>
    simp [hcc, get_session_slide_retry]

/-- C10: for a successful HTTP `POST /mouse_event` with event_type `up`,
the `slide_retry_count` in the response body always differs from the
counter stored in the session afterwards: when the confirmation sequence
confirms, the stored counter is incremented while the response reports
the pre-increment value; when it does not, the stored counter is
unchanged while the response reports the pre-call value plus one. -/
theorem C10_http_response_store_mismatch (gw : Gateway) (sd : SessionData)
    (x y : Int)
    (hr : sd.slide_retry_count < MAX_SLIDE_RETRY)
    (hm : gw.handle_mouse_event 0 "up" x y = true) :
    ∃ resp sd',
      handle_mouse_event gw (some sd) "up" x y = Except.ok (resp, some sd') ∧
      resp.completed = (check_completion_with_retry gw.check_completion 0).1 ∧
      (resp.completed = true →
        sd'.slide_retry_count = sd.slide_retry_count + 1 ∧
        resp.slide_retry_count = sd.slide_retry_count) ∧
      (resp.completed = false →
        sd'.slide_retry_count = sd.slide_retry_count ∧
        resp.slide_retry_count = sd.slide_retry_count + 1) ∧
      resp.slide_retry_count ≠ sd'.slide_retry_count := by
  rw [handle_mouse_event_up_eq gw sd x y hr hm]
  cases hcc : (check_completion_with_retry gw.check_completion 0).1 with
  | true =>
    rw [if_pos rfl]
    refine ⟨_, _, rfl, rfl, fun _ => ⟨rfl, rfl⟩, ?_, by dsimp only; omega⟩
    intro hfalse
    exact absurd hfalse (by simp)
  | false =>
    rw [if_neg Bool.false_ne_true]
    refine ⟨_, _, rfl, rfl, ?_, fun _ => ⟨rfl, rfl⟩, by dsimp only; omega⟩
    intro htrue
    exact absurd htrue (by simp)

/-- C10 witness: the constantly-positive gateway on the fresh exemplar
session. -/
theorem C10_http_response_store_mismatch_witness :
    ∃ resp sd',
      handle_mouse_event exGatewayTT (some exSession) "up" 10 10 =
        Except.ok (resp, some sd') ∧
      resp.completed =
        (check_completion_with_retry exGatewayTT.check_completion 0).1 ∧
      (resp.completed = true →
        sd'.slide_retry_count = exSession.slide_retry_count + 1 ∧
        resp.slide_retry_count = exSession.slide_retry_count) ∧
      (resp.completed = false →
        sd'.slide_retry_count = exSession.slide_retry_count ∧
        resp.slide_retry_count = exSession.slide_retry_count + 1) ∧
      resp.slide_retry_count ≠ sd'.slide_retry_count :=
  C10_http_response_store_mismatch exGatewayTT exSession 10 10 (by decide) rfl

end CaptchaRemote
